import Mathlib

/-!
Shallow embedding of `my_agent/tools.py` (Google-ADK assistant tools):
the credential store (`get_calendar_service`), the calendar tool
(`create_calendar_event`), the weather tool (`get_weather`) and the news
tool (`news_tool`).  External effects (the local filesystem, the OAuth
library calls, and each HTTP request's outcome) are passed in as explicit
inputs; each tool is then the pure function the Python control flow
computes over those inputs.  Machine strings are Lean `String`s, Python
ints are `Int`, and Python exceptions are `Except` values.
-/

deriving instance DecidableEq for Except

namespace GoogleADK

/-- Python list indexing `l[i]` for a natural index: an out-of-range access
raises `IndexError`. -/
def pyIndex {α : Type} (l : List α) (i : Nat) : Except String α :=
  match l.get? i with
  | some x => Except.ok x
  | none => Except.error "IndexError: list index out of range"

/-- Python `min` over a list of numbers: raises `ValueError` on an empty list. -/
def pyMin : List Int → Except String Int
  | [] => Except.error "ValueError: min() arg is an empty sequence"
  | x :: xs => Except.ok (xs.foldl min x)

/-- Python `max` over a list of numbers: raises `ValueError` on an empty list. -/
def pyMax : List Int → Except String Int
  | [] => Except.error "ValueError: max() arg is an empty sequence"
  | x :: xs => Except.ok (xs.foldl max x)

/-- Helper for `pySplit`: split a character list at every occurrence of `sep`,
`acc` holding the (reversed) current fragment. -/
def splitChar (sep : Char) : List Char → List Char → List (List Char)
  | [], acc => [acc.reverse]
  | c :: cs, acc =>
    if c = sep then acc.reverse :: splitChar sep cs []
    else splitChar sep cs (c :: acc)

/-- Python `s.split(sep)` for a single-character separator. -/
def pySplit (sep : Char) (s : String) : List String :=
  (splitChar sep s.data []).map String.mk

/-- Python `s.lower()` (ASCII range, which is all the code compares against). -/
def pyLower (s : String) : String :=
  String.mk (s.data.map Char.toLower)

/-- The string `s` starts with the string `p`. -/
def strStarts (p s : String) : Prop := ∃ t, s = p ++ t

/-- First character of a string, if any. -/
def firstChar (s : String) : Option Char := s.data.head?

/- ------------------------------------------------------------------ -/
/- Credential store: `get_calendar_service` (tools.py lines 20-45)     -/
/- ------------------------------------------------------------------ -/

/-- The observable state of a loaded OAuth credential
(`google.oauth2.credentials.Credentials`): the `valid`, `expired` and
`refresh_token` attributes the code branches on, plus the serialized
content that `to_json` would write back. -/
structure Creds where
  valid : Bool
  expired : Bool
  hasRefreshToken : Bool
  content : String
deriving DecidableEq

/-- The part of the local filesystem `get_calendar_service` touches:
 the parsed token file (if `my_agent/token.json` exists) and whether
`my_agent/credentials.json` exists. -/
structure FS where
  tokenFile : Option Creds
  credentialsFileExists : Bool
deriving DecidableEq

/-- Outcomes of the two library calls that contact the OAuth endpoints:
`creds.refresh(Request())` and `flow.run_local_server(port=0)`.  Each
either yields new credentials or raises (message captured). -/
structure CalEnv where
  refreshResult : Except String Creds
  flowResult : Except String Creds
deriving DecidableEq

/-- Exceptions `get_calendar_service` can raise to its caller. -/
inductive CalError where
  | fileNotFound (msg : String)
  | refreshFailed (msg : String)
  | flowFailed (msg : String)
deriving DecidableEq

def CREDENTIALS_FILE : String := "my_agent/credentials.json"

def TOKEN_FILE : String := "my_agent/token.json"

/-- Message of the `FileNotFoundError` raised when `credentials.json` is missing. -/
def missingCredsMsg : String :=
  "Missing " ++ CREDENTIALS_FILE ++ ". Please download it from Google Cloud Console."

/-- Result of a `get_calendar_service` call: the raised exception or the
credentials backing the returned service object, the filesystem afterwards,
and whether the token file was written, the interactive flow run, or a
refresh attempted. -/
structure CalServiceResult where
  result : Except CalError Creds
  fs : FS
  tokenWritten : Bool
  flowRun : Bool
  refreshRun : Bool
deriving DecidableEq

/-- The first-time-login arm of `get_calendar_service`: raise
`FileNotFoundError` if `credentials.json` is absent, otherwise run the
interactive browser flow and, on success, persist the token. -/
def loginFlow (fs : FS) (env : CalEnv) : CalServiceResult :=
  if fs.credentialsFileExists then
    match env.flowResult with
    | Except.ok c =>
      { result := Except.ok c, fs := { fs with tokenFile := some c },
        tokenWritten := true, flowRun := true, refreshRun := false }
    | Except.error m =>
      { result := Except.error (CalError.flowFailed m), fs := fs,
        tokenWritten := false, flowRun := true, refreshRun := false }
  else
    { result := Except.error (CalError.fileNotFound missingCredsMsg), fs := fs,
      tokenWritten := false, flowRun := false, refreshRun := false }

/-- The refresh arm of `get_calendar_service`: `creds.refresh(Request())`
followed (on success) by persisting the token. -/
def refreshCreds (fs : FS) (env : CalEnv) : CalServiceResult :=
  match env.refreshResult with
  | Except.ok c =>
    { result := Except.ok c, fs := { fs with tokenFile := some c },
      tokenWritten := true, flowRun := false, refreshRun := true }
  | Except.error m =>
    { result := Except.error (CalError.refreshFailed m), fs := fs,
      tokenWritten := false, flowRun := false, refreshRun := true }

/-- `get_calendar_service` (tools.py lines 20-45).  Load the token file if
present; if the loaded credentials are absent or invalid, refresh when
`creds and creds.expired and creds.refresh_token`, otherwise run the
first-time login; after either, write the token file. -/
def get_calendar_service (fs : FS) (env : CalEnv) : CalServiceResult :=
  match fs.tokenFile with
  | none => loginFlow fs env
  | some c =>
    if c.valid then
      { result := Except.ok c, fs := fs,
        tokenWritten := false, flowRun := false, refreshRun := false }
    else if c.expired && c.hasRefreshToken then
      refreshCreds fs env
    else
      loginFlow fs env

/-- The loaded token is absent, or invalid without being refreshable: the
configurations in which `get_calendar_service` reaches its
first-time-login arm. -/
def needsInteractive : Option Creds → Bool
  | none => true
  | some c => !c.valid && !(c.expired && c.hasRefreshToken)

/- ------------------------------------------------------------------ -/
/- Calendar tool: `create_calendar_event` (tools.py lines 48-80)       -/
/- ------------------------------------------------------------------ -/

/-- Pydantic schema `CreateEventInput` (tools.py lines 48-53); `timezone`
defaults to `Asia/Kolkata` when the caller omits it. -/
structure CreateEventInput where
  summary : String
  start_time : String
  end_time : String
  timezone : String := "Asia/Kolkata"
deriving DecidableEq

/-- A `dateTime`/`timeZone` pair of the provider event payload. -/
structure EventTime where
  dateTime : String
  timeZone : String
deriving DecidableEq

/-- The event body handed to `service.events().insert` (tools.py lines 66-71). -/
structure EventPayload where
  summary : String
  start : EventTime
  «end» : EventTime
deriving DecidableEq

/-- Construction of the provider event payload from the tool input
(tools.py lines 66-71): one `timezone` field feeds both `start.timeZone`
and `end.timeZone`. -/
def buildEvent (input : CreateEventInput) : EventPayload :=
  { summary := input.summary,
    start := { dateTime := input.start_time, timeZone := input.timezone },
    «end» := { dateTime := input.end_time, timeZone := input.timezone } }

/-- The `start` object of the provider response, whose `dateTime` the
success message reads via `.get`. -/
structure StartField where
  dateTime : Option String
deriving DecidableEq

/-- The fields of the provider's insert response that the success message
reads via `.get`: each may be missing. -/
structure InsertedEvent where
  summary : Option String
  start : Option StartField
  htmlLink : Option String
deriving DecidableEq

/-- Rendering of an optional string in an f-string: a missing value
(`None`) prints as `None`. -/
def pyStr (o : Option String) : String := o.getD "None"

/-- Python `str(e)` of the exceptions `get_calendar_service` raises. -/
def calErrStr : CalError → String
  | CalError.fileNotFound m => m
  | CalError.refreshFailed m => m
  | CalError.flowFailed m => m

/-- Message of the `AttributeError` raised by `None.get(...)` when the
insert response has no `start` object. -/
def noneGetMsg : String := "\x27NoneType\x27 object has no attribute \x27get\x27"

/-- `create_calendar_event` (tools.py lines 57-80).  The whole body runs
under `try/except Exception`, so every exception becomes an
`ERROR:`-prefixed string.  `insert` is the provider's insert endpoint,
applied to the payload `buildEvent input`. -/
def create_calendar_event (input : CreateEventInput) (fs : FS) (env : CalEnv)
    (insert : EventPayload → Except String InsertedEvent) : String :=
  match (get_calendar_service fs env).result with
  | Except.error e => "ERROR: Could not create event. Details: " ++ calErrStr e
  | Except.ok _ =>
    match insert (buildEvent input) with
    | Except.error e => "ERROR: Could not create event. Details: " ++ e
    | Except.ok ev =>
      match ev.start with
      | none => "ERROR: Could not create event. Details: " ++ noneGetMsg
      | some st =>
        "SUCCESS: Event \x27" ++ pyStr ev.summary ++ "\x27 scheduled on " ++
          pyStr st.dateTime ++ ". Link: " ++ pyStr ev.htmlLink

/- ------------------------------------------------------------------ -/
/- Weather tool: `get_weather` (tools.py lines 86-166)                 -/
/- ------------------------------------------------------------------ -/

/-- Outcome of one `requests.get(...) ; raise_for_status() ; json()` step,
as distinguished by the tool's `except` clauses: parsed data, an
`HTTPError` (message captured), another `RequestException`, or any other
exception. -/
inductive WebOutcome (α : Type) where
  | ok (data : α)
  | httpError (e : String)
  | connError
  | otherError (e : String)
deriving DecidableEq

/-- One geocoding result: the fields the code reads.  Coordinates are
modelled in hundredths of a degree so that the `:.2f` rendering is exact. -/
structure GeoLocation where
  name : String
  country : String
  latitude : Int
  longitude : Int
deriving DecidableEq

/-- Parsed geocoding response body: `geo_data.get("results")`, `none` when
the key is absent or null. -/
structure GeoData where
  results : Option (List GeoLocation)
deriving DecidableEq

/-- Parsed forecast response: `forecast_data["hourly"]`. -/
structure ForecastHourly where
  time : List String
  temperature_2m : List Int
deriving DecidableEq

/-- The success dictionary returned by `get_weather` (tools.py lines 150-157). -/
structure WeatherSuccess where
  city : String
  report : String
  min_temperature_celsius : Int
  max_temperature_celsius : Int
  hourly_data : List (String × Int)
deriving DecidableEq

/-- The dictionary returned by `get_weather`: the `status` key selects the
success shape or the two-field error shape. -/
inductive WeatherResult where
  | success (s : WeatherSuccess)
  | error (error_message : String)
deriving DecidableEq

/-- Value of the `status` key of a `get_weather` result dictionary. -/
def statusOf : WeatherResult → String
  | WeatherResult.success _ => "success"
  | WeatherResult.error _ => "error"

/-- Length of the `hourly_data` list of a result (0 for the error shape). -/
def hourlyLen : WeatherResult → Nat
  | WeatherResult.success s => s.hourly_data.length
  | WeatherResult.error _ => 0

/-- Error message of the `except requests.exceptions.HTTPError` arm. -/
def httpErrMsg (e : String) : String :=
  "HTTP Error: Could not fetch data. (" ++ e ++ ")"

/-- Error message of the `except requests.exceptions.RequestException` arm. -/
def connErrMsg : String := "Connection Error: Could not connect to the API server."

/-- Error message of the generic `except Exception` arm. -/
def unexpectedMsg (e : String) : String := "An unexpected error occurred: " ++ e

/-- Error message returned when geocoding yields no results. -/
def notFoundMsg (city : String) : String :=
  "Sorry, could not find coordinates for \x27" ++ city ++ "\x27."

/-- Python falsiness of `geo_data.get("results")`: missing/null or the
empty list. -/
def noResults : Option (List GeoLocation) → Bool
  | none => true
  | some l => l.isEmpty

/-- Python `:.2f` rendering of a coordinate held in hundredths of a degree. -/
def fmt2 (x : Int) : String :=
  toString (x / 100) ++ "." ++
    (if (x % 100).natAbs < 10 then "0" else "") ++ toString (x % 100).natAbs

/-- `times[i].split("T")[1].split(":")[0]` — the hour label of one report
line; raises `IndexError` when the timestamp has no `T`. -/
def hourLabel (t : String) : Except String String := do
  let d1 ← pyIndex (pySplit 'T' t) 1
  pyIndex (pySplit ':' d1) 0

/-- Indices visited by `range(0, n, 4)`. -/
def sampleIndices (n : Nat) : List Nat :=
  (List.range n).filter (fun i => i % 4 == 0)

/-- The sampling loop of the report (tools.py lines 146-147): every 4th
hour, `"  {hh}h: {temp}°C\n"`; `temperatures[i]` may raise `IndexError`. -/
def reportLines (times : List String) (temperatures : List Int) : Except String String :=
  (sampleIndices times.length).foldlM
    (fun acc i => do
      let t ← pyIndex times i
      let hh ← hourLabel t
      let temp ← pyIndex temperatures i
      Except.ok (acc ++ "  " ++ hh ++ "h: " ++ toString temp ++ "°C\n"))
    ""

/-- Header of the report string (tools.py lines 138-144). -/
def reportHeader (loc : GeoLocation) (minT maxT : Int) : String :=
  "Hourly Temperature Forecast for " ++ loc.name ++ ", " ++ loc.country ++
    " (Lat: " ++ fmt2 loc.latitude ++ ", Lon: " ++ fmt2 loc.longitude ++
    ") for the next 24 hours:\n" ++
    "Min Temperature: " ++ toString minT ++ "°C\n" ++
    "Max Temperature: " ++ toString maxT ++ "°C\n" ++
    "Hourly Data (Time: Temp):\n"

/-- Step 3 of `get_weather` (tools.py lines 130-157): compile the report
from the forecast body.  Any raised exception (`ValueError` from
`min`/`max` on an empty list, `IndexError` from sampling) propagates to
the generic `except` arm. -/
def processForecast (loc : GeoLocation) (fc : ForecastHourly) :
    Except String WeatherSuccess :=
  match pyMin fc.temperature_2m with
  | Except.error e => Except.error e
  | Except.ok minT =>
    match pyMax fc.temperature_2m with
    | Except.error e => Except.error e
    | Except.ok maxT =>
      match reportLines fc.time fc.temperature_2m with
      | Except.error e => Except.error e
      | Except.ok lines =>
        Except.ok
          { city := loc.name,
            report := reportHeader loc minT maxT ++ lines,
            min_temperature_celsius := minT,
            max_temperature_celsius := maxT,
            hourly_data := fc.time.zip fc.temperature_2m }

/-- A `get_weather` call: the returned dictionary plus whether the
forecast endpoint was contacted at all. -/
structure WeatherCall where
  result : WeatherResult
  forecastCalled : Bool
deriving DecidableEq

/-- `get_weather` (tools.py lines 86-166), as a function of the two HTTP
outcomes.  Geocode; on a falsy `results` return the not-found error
without calling the forecast endpoint; otherwise use the first result,
fetch the forecast and compile the report; every exception is mapped by
the three `except` arms. -/
def get_weather (city : String) (geo : WebOutcome GeoData)
    (forecast : WebOutcome ForecastHourly) : WeatherCall :=
  match geo with
  | WebOutcome.httpError e => ⟨WeatherResult.error (httpErrMsg e), false⟩
  | WebOutcome.connError => ⟨WeatherResult.error connErrMsg, false⟩
  | WebOutcome.otherError e => ⟨WeatherResult.error (unexpectedMsg e), false⟩
  | WebOutcome.ok geoData =>
    match geoData.results with
    | none => ⟨WeatherResult.error (notFoundMsg city), false⟩
    | some [] => ⟨WeatherResult.error (notFoundMsg city), false⟩
    | some (loc :: _) =>
      match forecast with
      | WebOutcome.httpError e => ⟨WeatherResult.error (httpErrMsg e), true⟩
      | WebOutcome.connError => ⟨WeatherResult.error connErrMsg, true⟩
      | WebOutcome.otherError e => ⟨WeatherResult.error (unexpectedMsg e), true⟩
      | WebOutcome.ok fc =>
        match processForecast loc fc with
        | Except.ok s => ⟨WeatherResult.success s, true⟩
        | Except.error e => ⟨WeatherResult.error (unexpectedMsg e), true⟩

/- ------------------------------------------------------------------ -/
/- News tool: `news_tool` (tools.py lines 173-250)                     -/
/- ------------------------------------------------------------------ -/

def NEWS_API_BASE_URL_EVERYTHING : String := "https://newsapi.org/v2/everything"

def NEWS_API_BASE_URL_HEADLINES : String := "https://newsapi.org/v2/top-headlines"

def NEWS_API_KEY : String := "7bf6895b452a4bf2b3f84c531e36dffd"

/-- Pydantic schema `NewsToolInput` (tools.py lines 178-189), with its
field defaults. -/
structure NewsToolInput where
  query : String := "general"
  max_articles : Int := 5
deriving DecidableEq

/-- A request-parameter value: Python passes strings and ints. -/
inductive PVal where
  | s (v : String)
  | n (v : Int)
deriving DecidableEq

/-- The HTTP request `news_tool` issues, together with the human-readable
`query_desc` computed in the same branch. -/
structure NewsRequest where
  url : String
  params : List (String × PVal)
  query_desc : String
deriving DecidableEq

/-- Branch selection of `news_tool` (tools.py lines 201-219): the
case-insensitive comparison with `general` picks top-headlines, anything
else picks the full-text search endpoint. -/
def newsRequestOf (input : NewsToolInput) : NewsRequest :=
  if pyLower input.query = "general" then
    { url := NEWS_API_BASE_URL_HEADLINES,
      params := [("apiKey", PVal.s NEWS_API_KEY), ("country", PVal.s "us"),
                 ("pageSize", PVal.n input.max_articles)],
      query_desc := "Top US Headlines" }
  else
    { url := NEWS_API_BASE_URL_EVERYTHING,
      params := [("apiKey", PVal.s NEWS_API_KEY), ("q", PVal.s input.query),
                 ("sortBy", PVal.s "publishedAt"),
                 ("pageSize", PVal.n input.max_articles)],
      query_desc := "News about \x27" ++ input.query ++ "\x27" }

/-- An article of the news response; the code reads `title` and
`description` via `.get(..., "N/A")`. -/
structure Article where
  title : Option String
  description : Option String
deriving DecidableEq

/-- Parsed news response body: `data.get("articles", [])`, `none` when the
key is absent or null. -/
structure NewsData where
  articles : Option (List Article)
deriving DecidableEq

/-- Outcome of the news request: parsed data, an `HTTPError` (the handler
reads `response.status_code` and `response.text`), another
`RequestException`, or any other exception. -/
inductive NewsOutcome where
  | ok (data : NewsData)
  | httpError (status : Int) (text : String)
  | connError
  | otherError (e : String)
deriving DecidableEq

/-- One block of the formatted output (tools.py lines 233-238). -/
def formatArticle (i : Nat) (a : Article) : String :=
  "--- Article " ++ toString (i + 1) ++ " ---\n" ++
    "Title: " ++ a.title.getD "N/A" ++ "\n" ++
    "Description: " ++ a.description.getD "N/A"

/-- The `output_list` built by the formatting loop: one block per article
of the response, with its enumeration index. -/
def newsOutputList (articles : List Article) : List String :=
  articles.enum.map (fun p => formatArticle p.1 p.2)

/-- `news_tool` (tools.py lines 193-250) as a function of the request
outcome.  An empty (or missing) article list yields an `INFO:` message;
otherwise every article of the response is formatted; the three `except`
arms yield `ERROR:` strings. -/
def news_tool (input : NewsToolInput) (resp : NewsOutcome) : String :=
  let req := newsRequestOf input
  match resp with
  | NewsOutcome.ok data =>
    match data.articles.getD [] with
    | [] => "INFO: No news articles found for " ++ req.query_desc ++ "."
    | a :: rest =>
      "Top " ++ toString (a :: rest).length ++ " Results for " ++ req.query_desc ++
        ":" ++ "\n\n" ++ String.intercalate "\n\n" (newsOutputList (a :: rest))
  | NewsOutcome.httpError status text =>
    "ERROR: HTTP Error accessing News API. Status Code: " ++ toString status ++
      ". Details: " ++ text
  | NewsOutcome.connError =>
    "ERROR: Connection Error: Could not connect to the News API server."
  | NewsOutcome.otherError e =>
    "ERROR: An unexpected error occurred in news_tool: " ++ e

/-- Number of formatted article blocks in the string a `news_tool` call
returns. -/
def newsArticleCount (resp : NewsOutcome) : Nat :=
  match resp with
  | NewsOutcome.ok data => (newsOutputList (data.articles.getD [])).length
  | _ => 0

/- ------------------------------------------------------------------ -/
/- Shared helper lemmas                                                -/
/- ------------------------------------------------------------------ -/

theorem string_data_append (s t : String) : (s ++ t).data = s.data ++ t.data := by
  rcases s with ⟨ls⟩; rcases t with ⟨lt⟩; rfl

theorem str_append_assoc (a b c : String) : a ++ b ++ c = a ++ (b ++ c) := by
  rcases a with ⟨la⟩; rcases b with ⟨lb⟩; rcases c with ⟨lc⟩
  exact congrArg String.mk (List.append_assoc la lb lc)

theorem strStarts_append {p a : String} (t : String) (h : strStarts p a) :
    strStarts p (a ++ t) := by
  obtain ⟨u, rfl⟩ := h
  exact ⟨u ++ t, str_append_assoc p u t⟩

theorem firstChar_append {p : String} {c : Char} (t : String)
    (hp : firstChar p = some c) : firstChar (p ++ t) = some c := by
  unfold firstChar at hp ⊢
  rw [string_data_append]
  cases hd : p.data with
  | nil => rw [hd] at hp; cases hp
  | cons a l => rw [hd] at hp; simpa using hp

theorem strStarts_firstChar {p s : String} {c : Char} (hp : firstChar p = some c)
    (h : strStarts p s) : firstChar s = some c := by
  obtain ⟨t, rfl⟩ := h
  exact firstChar_append t hp

theorem not_strStarts {p q s : String} {c d : Char}
    (hp : firstChar p = some c) (hq : firstChar q = some d) (hne : c ≠ d)
    (h : strStarts p s) : ¬ strStarts q s := fun h2 => by
  have e1 := strStarts_firstChar hp h
  have e2 := strStarts_firstChar hq h2
  rw [e1] at e2
  exact hne (Option.some.inj e2)

theorem foldl_min_le (l : List Int) (x : Int) : l.foldl min x ≤ x := by
  induction l generalizing x with
  | nil => exact le_rfl
  | cons y ys ih => exact le_trans (ih (min x y)) (min_le_left x y)

theorem le_foldl_max (l : List Int) (x : Int) : x ≤ l.foldl max x := by
  induction l generalizing x with
  | nil => exact le_rfl
  | cons y ys ih => exact le_trans (le_max_left x y) (ih (max x y))

theorem pyMin_le_pyMax {l : List Int} {a b : Int}
    (ha : pyMin l = Except.ok a) (hb : pyMax l = Except.ok b) : a ≤ b := by
  cases l with
  | nil => simp [pyMin] at ha
  | cons x xs =>
    simp [pyMin] at ha
    simp [pyMax] at hb
    rw [← ha, ← hb]
    exact le_trans (foldl_min_le xs x) (le_foldl_max xs x)

/- ------------------------------------------------------------------ -/
/- Claims                                                              -/
/- ------------------------------------------------------------------ -/

/-- C10: the event payload `create_calendar_event` sends to the provider
applies the single `timezone` field identically to both the `start` and
the `end` objects, and the field defaults to `Asia/Kolkata` when the
caller omits it. -/
theorem C10_single_timezone (input : CreateEventInput) :
    (buildEvent input).start.timeZone = input.timezone ∧
    (buildEvent input).«end».timeZone = input.timezone ∧
    ∀ s st et,
      ({ summary := s, start_time := st, end_time := et } : CreateEventInput).timezone
        = "Asia/Kolkata" :=
  ⟨rfl, rfl, fun _ _ _ => rfl⟩

/-- C2: when the geocoding response contains no results, `get_weather`
returns exactly the two-field error dictionary with the city
interpolated, and makes no forecast call. -/
theorem C2_no_results (city : String) (geoData : GeoData)
    (forecast : WebOutcome ForecastHourly) (h : noResults geoData.results = true) :
    get_weather city (WebOutcome.ok geoData) forecast
      = ⟨WeatherResult.error
          ("Sorry, could not find coordinates for \x27" ++ city ++ "\x27."), false⟩ := by
  rcases geoData with ⟨results⟩
  cases results with
  | none => rfl
  | some l =>
    cases l with
    | nil => rfl
    | cons a as => simp [noResults] at h

/-- Witness for C2 at the spec's example city. -/
theorem C2_witness :
    get_weather "Nonexistent City Xyz123" (WebOutcome.ok ⟨none⟩) WebOutcome.connError
      = ⟨WeatherResult.error
          "Sorry, could not find coordinates for \x27Nonexistent City Xyz123\x27.", false⟩ :=
  C2_no_results "Nonexistent City Xyz123" ⟨none⟩ WebOutcome.connError rfl

/-- C4: a query equal to `general` under case-insensitive comparison sends
the request to the top-headlines endpoint with parameters apiKey,
country=us and pageSize=max_articles; any other query goes to the
everything endpoint with apiKey, q=query, sortBy=publishedAt and
pageSize=max_articles. -/
theorem C4_endpoint_selection (input : NewsToolInput) :
    (pyLower input.query = "general" →
      newsRequestOf input =
        { url := NEWS_API_BASE_URL_HEADLINES,
          params := [("apiKey", PVal.s NEWS_API_KEY), ("country", PVal.s "us"),
                     ("pageSize", PVal.n input.max_articles)],
          query_desc := "Top US Headlines" }) ∧
    (pyLower input.query ≠ "general" →
      newsRequestOf input =
        { url := NEWS_API_BASE_URL_EVERYTHING,
          params := [("apiKey", PVal.s NEWS_API_KEY), ("q", PVal.s input.query),
                     ("sortBy", PVal.s "publishedAt"),
                     ("pageSize", PVal.n input.max_articles)],
          query_desc := "News about \x27" ++ input.query ++ "\x27" }) := by
  constructor
  · intro h; simp [newsRequestOf, h]
  · intro h; simp [newsRequestOf, h]

/-- Witness for C4: `General` selects the headlines variant, `bitcoin` the
search variant with q=bitcoin. -/
theorem C4_witness :
    newsRequestOf { query := "General" } =
      { url := NEWS_API_BASE_URL_HEADLINES,
        params := [("apiKey", PVal.s NEWS_API_KEY), ("country", PVal.s "us"),
                   ("pageSize", PVal.n 5)],
        query_desc := "Top US Headlines" } ∧
    newsRequestOf { query := "bitcoin" } =
      { url := NEWS_API_BASE_URL_EVERYTHING,
        params := [("apiKey", PVal.s NEWS_API_KEY), ("q", PVal.s "bitcoin"),
                   ("sortBy", PVal.s "publishedAt"), ("pageSize", PVal.n 5)],
        query_desc := "News about \x27bitcoin\x27" } :=
  ⟨(C4_endpoint_selection { query := "General" }).1 (by decide),
   (C4_endpoint_selection { query := "bitcoin" }).2 (by decide)⟩

/-- C7: an HTTP-successful news response whose article list is empty (or
missing) yields an INFO-prefixed string, never an ERROR-prefixed one. -/
theorem C7_empty_is_info (input : NewsToolInput) (d : NewsData)
    (h : d.articles.getD [] = []) :
    strStarts "INFO:" (news_tool input (NewsOutcome.ok d)) ∧
    ¬ strStarts "ERROR:" (news_tool input (NewsOutcome.ok d)) := by
  have hres : news_tool input (NewsOutcome.ok d) =
      "INFO: No news articles found for " ++ (newsRequestOf input).query_desc ++ "." := by
    simp [news_tool, h]
  have hstart : strStarts "INFO:" (news_tool input (NewsOutcome.ok d)) := by
    rw [hres]
    exact strStarts_append _ (strStarts_append _ ⟨" No news articles found for ", rfl⟩)
  exact ⟨hstart,
    not_strStarts (p := "INFO:") (q := "ERROR:") (c := 'I') (d := 'E')
      rfl rfl (by decide) hstart⟩

/-- Witness for C7 with a response whose articles key is absent. -/
theorem C7_witness :
    strStarts "INFO:" (news_tool { query := "general" } (NewsOutcome.ok ⟨none⟩)) ∧
    ¬ strStarts "ERROR:" (news_tool { query := "general" } (NewsOutcome.ok ⟨none⟩)) :=
  C7_empty_is_info { query := "general" } ⟨none⟩ rfl

/-- C1 (counterexample): the provider insert call succeeds but its
response carries no start object; reading it raises inside the try block
and the tool returns an ERROR-prefixed, not SUCCESS-prefixed, string. -/
theorem C1_counterexample :
    create_calendar_event
        { summary := "Team Meeting", start_time := "2025-12-01T10:00:00",
          end_time := "2025-12-01T11:00:00" }
        ⟨some ⟨true, false, false, "tok"⟩, true⟩
        ⟨Except.error "unused", Except.error "unused"⟩
        (fun _ => Except.ok ⟨some "Team Meeting", none, some "link"⟩)
      = "ERROR: Could not create event. Details: " ++ noneGetMsg ∧
    ¬ strStarts "SUCCESS:"
        (create_calendar_event
          { summary := "Team Meeting", start_time := "2025-12-01T10:00:00",
            end_time := "2025-12-01T11:00:00" }
          ⟨some ⟨true, false, false, "tok"⟩, true⟩
          ⟨Except.error "unused", Except.error "unused"⟩
          (fun _ => Except.ok ⟨some "Team Meeting", none, some "link"⟩)) := by
  constructor
  · rfl
  · intro h2
    exact absurd (strStarts_firstChar (p := "SUCCESS:") (c := 'S') rfl h2) (by decide)

/-- C1 (amended): `create_calendar_event` always returns a string prefixed
SUCCESS: or ERROR: and never raises; the prefix is SUCCESS: when the
credential handle is produced, the insert call succeeds and its response
carries a start object, and ERROR: on credential failure, on an insert
exception, and on a successful insert whose response has no start
object. -/
theorem create_event_eq_credsErr (input : CreateEventInput) (fs : FS) (env : CalEnv)
    (insert : EventPayload → Except String InsertedEvent) (e : CalError)
    (h : (get_calendar_service fs env).result = Except.error e) :
    create_calendar_event input fs env insert =
      "ERROR: Could not create event. Details: " ++ calErrStr e := by
  simp [create_calendar_event, h]

theorem create_event_eq_insErr (input : CreateEventInput) (fs : FS) (env : CalEnv)
    (insert : EventPayload → Except String InsertedEvent) (c : Creds) (m : String)
    (h : (get_calendar_service fs env).result = Except.ok c)
    (h2 : insert (buildEvent input) = Except.error m) :
    create_calendar_event input fs env insert =
      "ERROR: Could not create event. Details: " ++ m := by
  simp [create_calendar_event, h, h2]

theorem create_event_eq_noStart (input : CreateEventInput) (fs : FS) (env : CalEnv)
    (insert : EventPayload → Except String InsertedEvent) (c : Creds) (ev : InsertedEvent)
    (h : (get_calendar_service fs env).result = Except.ok c)
    (h2 : insert (buildEvent input) = Except.ok ev) (h3 : ev.start = none) :
    create_calendar_event input fs env insert =
      "ERROR: Could not create event. Details: " ++ noneGetMsg := by
  simp [create_calendar_event, h, h2, h3]

theorem create_event_eq_success (input : CreateEventInput) (fs : FS) (env : CalEnv)
    (insert : EventPayload → Except String InsertedEvent) (c : Creds)
    (ev : InsertedEvent) (st : StartField)
    (h : (get_calendar_service fs env).result = Except.ok c)
    (h2 : insert (buildEvent input) = Except.ok ev) (h3 : ev.start = some st) :
    create_calendar_event input fs env insert =
      "SUCCESS: Event \x27" ++ pyStr ev.summary ++ "\x27 scheduled on " ++
        pyStr st.dateTime ++ ". Link: " ++ pyStr ev.htmlLink := by
  simp [create_calendar_event, h, h2, h3]

theorem C1_success_or_error (input : CreateEventInput) (fs : FS) (env : CalEnv)
    (insert : EventPayload → Except String InsertedEvent) :
    (strStarts "SUCCESS:" (create_calendar_event input fs env insert) ∨
      strStarts "ERROR:" (create_calendar_event input fs env insert)) ∧
    (∀ c ev st, (get_calendar_service fs env).result = Except.ok c →
      insert (buildEvent input) = Except.ok ev → ev.start = some st →
      strStarts "SUCCESS:" (create_calendar_event input fs env insert)) ∧
    (∀ e, (get_calendar_service fs env).result = Except.error e →
      strStarts "ERROR:" (create_calendar_event input fs env insert)) ∧
    (∀ c m, (get_calendar_service fs env).result = Except.ok c →
      insert (buildEvent input) = Except.error m →
      strStarts "ERROR:" (create_calendar_event input fs env insert)) ∧
    (∀ c ev, (get_calendar_service fs env).result = Except.ok c →
      insert (buildEvent input) = Except.ok ev → ev.start = none →
      strStarts "ERROR:" (create_calendar_event input fs env insert)) := by
  have herr : ∀ x : String,
      strStarts "ERROR:" ("ERROR: Could not create event. Details: " ++ x) := fun x =>
    strStarts_append x ⟨" Could not create event. Details: ", rfl⟩
  have hS : ∀ x y z : String, strStarts "SUCCESS:"
      ("SUCCESS: Event \x27" ++ x ++ "\x27 scheduled on " ++ y ++ ". Link: " ++ z) :=
    fun x y z =>
      strStarts_append _ (strStarts_append _ (strStarts_append _
        (strStarts_append _ (strStarts_append _ ⟨" Event \x27", rfl⟩))))
  refine ⟨?_, ?_, ?_, ?_, ?_⟩
  · rcases hres : (get_calendar_service fs env).result with e | c0
    · exact Or.inr ((create_event_eq_credsErr input fs env insert e hres) ▸ herr _)
    · rcases hins : insert (buildEvent input) with m0 | ev0
      · exact Or.inr
          ((create_event_eq_insErr input fs env insert c0 m0 hres hins) ▸ herr _)
      · rcases hst : ev0.start with _ | st0
        · exact Or.inr
            ((create_event_eq_noStart input fs env insert c0 ev0 hres hins hst) ▸ herr _)
        · exact Or.inl
            ((create_event_eq_success input fs env insert c0 ev0 st0 hres hins hst) ▸
              hS _ _ _)
  · intro c ev st hok hins hst
    exact (create_event_eq_success input fs env insert c ev st hok hins hst) ▸ hS _ _ _
  · intro e he
    exact (create_event_eq_credsErr input fs env insert e he) ▸ herr _
  · intro c m hok hm
    exact (create_event_eq_insErr input fs env insert c m hok hm) ▸ herr _
  · intro c ev hok hins hst
    exact (create_event_eq_noStart input fs env insert c ev hok hins hst) ▸ herr _

/-- Witness for C1, applying the amended theorem at a concrete successful
insert whose response carries a start object. -/
theorem C1_witness :
    strStarts "SUCCESS:"
      (create_calendar_event
        { summary := "M", start_time := "2025-12-01T10:00:00",
          end_time := "2025-12-01T11:00:00" }
        ⟨some ⟨true, false, false, "tok"⟩, true⟩
        ⟨Except.error "unused", Except.error "unused"⟩
        (fun _ => Except.ok
          ⟨some "M", some ⟨some "2025-12-01T10:00:00+05:30"⟩, some "link"⟩)) :=
  (C1_success_or_error
      { summary := "M", start_time := "2025-12-01T10:00:00",
        end_time := "2025-12-01T11:00:00" }
      ⟨some ⟨true, false, false, "tok"⟩, true⟩
      ⟨Except.error "unused", Except.error "unused"⟩
      (fun _ => Except.ok
        ⟨some "M", some ⟨some "2025-12-01T10:00:00+05:30"⟩, some "link"⟩)).2.1
    ⟨true, false, false, "tok"⟩
    ⟨some "M", some ⟨some "2025-12-01T10:00:00+05:30"⟩, some "link"⟩
    ⟨some "2025-12-01T10:00:00+05:30"⟩ rfl rfl rfl

/-- C6 (counterexample): with max_articles = 1 and a provider response of
two articles, the returned string formats both articles; the cap is only
the pageSize request parameter, it is not enforced on the response. -/
theorem C6_counterexample :
    ¬ ((newsArticleCount (NewsOutcome.ok
          ⟨some [⟨some "A", some "a"⟩, ⟨some "B", some "b"⟩]⟩) : Int) ≤
        ({ query := "general", max_articles := 1 } : NewsToolInput).max_articles) ∧
    news_tool { query := "general", max_articles := 1 }
        (NewsOutcome.ok ⟨some [⟨some "A", some "a"⟩, ⟨some "B", some "b"⟩]⟩)
      = "Top 2 Results for Top US Headlines:\n\n--- Article 1 ---\nTitle: A\nDescription: a\n\n--- Article 2 ---\nTitle: B\nDescription: b" := by
  constructor
  · decide
  · rfl

/-- C6 (amended): both branches send pageSize = max_articles, and the
returned string contains exactly one formatted article per article of the
response; hence the count stays within max_articles whenever the provider
honours the requested pageSize. -/
theorem C6_cap (input : NewsToolInput) (d : NewsData)
    (h : ((d.articles.getD []).length : Int) ≤ input.max_articles) :
    ((newsArticleCount (NewsOutcome.ok d) : Int) ≤ input.max_articles) ∧
    ("pageSize", PVal.n input.max_articles) ∈ (newsRequestOf input).params := by
  constructor
  · have hlen : newsArticleCount (NewsOutcome.ok d) = (d.articles.getD []).length := by
      simp [newsArticleCount, newsOutputList]
    rw [hlen]; exact h
  · unfold newsRequestOf
    split
    · simp
    · simp

/-- Witness for C6 with a provider that honours the cap. -/
theorem C6_witness :
    ((newsArticleCount (NewsOutcome.ok ⟨some [⟨some "T", some "D"⟩]⟩) : Int) ≤ 5) ∧
    ("pageSize", PVal.n 5) ∈
      (newsRequestOf { query := "general", max_articles := 5 }).params :=
  C6_cap { query := "general", max_articles := 5 } ⟨some [⟨some "T", some "D"⟩]⟩
    (by decide)

/-- C5 (counterexample): a cached token exists (invalid, not expired) and
the client-secret file is absent; `get_calendar_service` still raises the
missing-client-secret error, contradicting the claimed raising exactly
when no cached token exists. -/
theorem C5_counterexample :
    (get_calendar_service ⟨some ⟨false, false, false, "tok"⟩, false⟩
        ⟨Except.error "e", Except.error "e"⟩).result
      = Except.error (CalError.fileNotFound missingCredsMsg) ∧
    (⟨some ⟨false, false, false, "tok"⟩, false⟩ : FS).tokenFile ≠ none := by
  refine ⟨rfl, ?_⟩
  intro h
  exact Option.noConfusion h

/-- C5 (amended): `get_calendar_service` raises the missing-client-secret
error exactly when the client-secret file is absent and the cached token,
if any, is neither valid nor refreshable (expired with a refresh token);
with a cached valid token it succeeds without raising. -/
theorem C5_missing_secret (fs : FS) (env : CalEnv) :
    ((get_calendar_service fs env).result
        = Except.error (CalError.fileNotFound missingCredsMsg)
      ↔ (fs.credentialsFileExists = false ∧ needsInteractive fs.tokenFile = true)) ∧
    (∀ c, fs.tokenFile = some c → c.valid = true →
      (get_calendar_service fs env).result = Except.ok c) := by
  rcases fs with ⟨tok, cf⟩
  constructor
  · cases tok with
    | none =>
      cases cf
      · simp [get_calendar_service, loginFlow, needsInteractive]
      · cases hf : env.flowResult with
        | error m => simp [get_calendar_service, loginFlow, needsInteractive, hf]
        | ok c2 => simp [get_calendar_service, loginFlow, needsInteractive, hf]
    | some c =>
      cases hv : c.valid with
      | true => simp [get_calendar_service, needsInteractive, hv]
      | false =>
        cases hcr : c.expired && c.hasRefreshToken with
        | true =>
          cases hr : env.refreshResult with
          | error m =>
            simp [get_calendar_service, refreshCreds, needsInteractive, hv, hcr, hr]
          | ok c2 =>
            simp [get_calendar_service, refreshCreds, needsInteractive, hv, hcr, hr]
        | false =>
          cases cf
          · simp [get_calendar_service, loginFlow, needsInteractive, hv, hcr]
          · cases hf : env.flowResult with
            | error m =>
              simp [get_calendar_service, loginFlow, needsInteractive, hv, hcr, hf]
            | ok c2 =>
              simp [get_calendar_service, loginFlow, needsInteractive, hv, hcr, hf]
  · intro c hc hv
    subst hc
    simp [get_calendar_service, hv]

/-- Witness for C5: with a cached valid token the service call succeeds. -/
theorem C5_witness :
    (get_calendar_service ⟨some ⟨true, false, false, "tok"⟩, false⟩
        ⟨Except.error "e", Except.error "e"⟩).result
      = Except.ok ⟨true, false, false, "tok"⟩ :=
  (C5_missing_secret ⟨some ⟨true, false, false, "tok"⟩, false⟩
      ⟨Except.error "e", Except.error "e"⟩).2
    ⟨true, false, false, "tok"⟩ rfl rfl

/-- C8: the token file is written exactly when a refresh or an interactive
acquisition completed; a valid loaded token leaves the filesystem
untouched; an expired token carrying a refresh token is refreshed without
the interactive flow and the refreshed token overwrites the token file. -/
theorem C8_token_write (fs : FS) (env : CalEnv) :
    ((get_calendar_service fs env).tokenWritten = true ↔
      (((get_calendar_service fs env).refreshRun = true ∧
          ∃ c, env.refreshResult = Except.ok c) ∨
        ((get_calendar_service fs env).flowRun = true ∧
          ∃ c, env.flowResult = Except.ok c))) ∧
    (∀ c, fs.tokenFile = some c → c.valid = true →
      (get_calendar_service fs env).fs = fs ∧
      (get_calendar_service fs env).tokenWritten = false) ∧
    (∀ c c2, fs.tokenFile = some c → c.valid = false → c.expired = true →
      c.hasRefreshToken = true → env.refreshResult = Except.ok c2 →
      (get_calendar_service fs env).flowRun = false ∧
      (get_calendar_service fs env).tokenWritten = true ∧
      (get_calendar_service fs env).fs.tokenFile = some c2) := by
  rcases fs with ⟨tok, cf⟩
  refine ⟨?_, ?_, ?_⟩
  · cases tok with
    | none =>
      cases cf
      · simp [get_calendar_service, loginFlow]
      · cases hf : env.flowResult with
        | error m => simp [get_calendar_service, loginFlow, hf]
        | ok c2 => simp [get_calendar_service, loginFlow, hf]
    | some c =>
      cases hv : c.valid with
      | true => simp [get_calendar_service, hv]
      | false =>
        cases hcr : c.expired && c.hasRefreshToken with
        | true =>
          cases hr : env.refreshResult with
          | error m => simp [get_calendar_service, refreshCreds, hv, hcr, hr]
          | ok c2 => simp [get_calendar_service, refreshCreds, hv, hcr, hr]
        | false =>
          cases cf
          · simp [get_calendar_service, loginFlow, hv, hcr]
          · cases hf : env.flowResult with
            | error m => simp [get_calendar_service, loginFlow, hv, hcr, hf]
            | ok c2 => simp [get_calendar_service, loginFlow, hv, hcr, hf]
  · intro c hc hv
    subst hc
    simp [get_calendar_service, hv]
  · intro c c2 hc hv he hrt hr
    subst hc
    simp [get_calendar_service, refreshCreds, hv, he, hrt, hr]

/-- Witness for C8: an expired token with a refresh token is refreshed,
no interactive flow runs, and the refreshed token is persisted. -/
theorem C8_witness :
    (get_calendar_service ⟨some ⟨false, true, true, "old"⟩, true⟩
        ⟨Except.ok ⟨true, false, true, "new"⟩, Except.error "x"⟩).flowRun = false ∧
    (get_calendar_service ⟨some ⟨false, true, true, "old"⟩, true⟩
        ⟨Except.ok ⟨true, false, true, "new"⟩, Except.error "x"⟩).tokenWritten = true ∧
    (get_calendar_service ⟨some ⟨false, true, true, "old"⟩, true⟩
        ⟨Except.ok ⟨true, false, true, "new"⟩,
          Except.error "x"⟩).fs.tokenFile = some ⟨true, false, true, "new"⟩ :=
  (C8_token_write ⟨some ⟨false, true, true, "old"⟩, true⟩
      ⟨Except.ok ⟨true, false, true, "new"⟩, Except.error "x"⟩).2.2
    ⟨false, true, true, "old"⟩ ⟨true, false, true, "new"⟩ rfl rfl rfl rfl rfl

/-- C9: every `get_weather` result carries a status equal to success or
error; the three exception classes map, at either of the two requests, to
the identical two-field error shape, with pairwise distinct messages. -/
theorem C9_error_taxonomy (city : String) (geo : WebOutcome GeoData)
    (fc : WebOutcome ForecastHourly) :
    (statusOf (get_weather city geo fc).result = "success" ∨
      statusOf (get_weather city geo fc).result = "error") ∧
    (∀ e, (get_weather city (WebOutcome.httpError e) fc).result
        = WeatherResult.error (httpErrMsg e)) ∧
    ((get_weather city WebOutcome.connError fc).result
        = WeatherResult.error connErrMsg) ∧
    (∀ e, (get_weather city (WebOutcome.otherError e) fc).result
        = WeatherResult.error (unexpectedMsg e)) ∧
    (∀ loc rest e, (get_weather city (WebOutcome.ok ⟨some (loc :: rest)⟩)
        (WebOutcome.httpError e)).result = WeatherResult.error (httpErrMsg e)) ∧
    (∀ loc rest, (get_weather city (WebOutcome.ok ⟨some (loc :: rest)⟩)
        WebOutcome.connError).result = WeatherResult.error connErrMsg) ∧
    (∀ loc rest e, (get_weather city (WebOutcome.ok ⟨some (loc :: rest)⟩)
        (WebOutcome.otherError e)).result = WeatherResult.error (unexpectedMsg e)) ∧
    (∀ e u, httpErrMsg e ≠ connErrMsg ∧ httpErrMsg e ≠ unexpectedMsg u ∧
      connErrMsg ≠ unexpectedMsg u) := by
  have hH : ∀ e : String, firstChar (httpErrMsg e) = some 'H' := fun e =>
    firstChar_append ")" (firstChar_append e rfl)
  have hA : ∀ u : String, firstChar (unexpectedMsg u) = some 'A' := fun u =>
    firstChar_append u rfl
  have hne : ∀ (a b : String) (c d : Char), firstChar a = some c →
      firstChar b = some d → c ≠ d → a ≠ b := by
    intro a b c d ha hb hcd hab
    rw [hab, hb] at ha
    exact hcd (Option.some.inj ha).symm
  refine ⟨?_, fun e => rfl, rfl, fun e => rfl, fun loc rest e => rfl,
    fun loc rest => rfl, fun loc rest e => rfl, fun e u => ?_⟩
  · cases hr : (get_weather city geo fc).result with
    | success s => exact Or.inl rfl
    | error m => exact Or.inr rfl
  · exact ⟨hne _ _ 'H' 'C' (hH e) rfl (by decide),
      hne _ _ 'H' 'A' (hH e) (hA u) (by decide),
      hne _ _ 'C' 'A' rfl (hA u) (by decide)⟩

/-- Witness for C9 at a concrete connection failure. -/
theorem C9_witness :
    (get_weather "London" WebOutcome.connError WebOutcome.connError).result
      = WeatherResult.error connErrMsg :=
  (C9_error_taxonomy "London" WebOutcome.connError WebOutcome.connError).2.2.1

/-- C3 (counterexample): a successful call whose forecast body carries two
timestamps but only one temperature: the call succeeds, yet `zip`
truncates `hourly_data` to one entry, shorter than `times`. -/
theorem C3_counterexample :
    statusOf (get_weather "X"
        (WebOutcome.ok ⟨some [⟨"X", "C", 0, 0⟩]⟩)
        (WebOutcome.ok ⟨["2024-01-01T00:00", "2024-01-01T01:00"], [5]⟩)).result
      = "success" ∧
    hourlyLen (get_weather "X"
        (WebOutcome.ok ⟨some [⟨"X", "C", 0, 0⟩]⟩)
        (WebOutcome.ok ⟨["2024-01-01T00:00", "2024-01-01T01:00"], [5]⟩)).result
      = 1 ∧
    (["2024-01-01T00:00", "2024-01-01T01:00"] : List String).length = 2 ∧
    ([5] : List Int) ≠ [] := by
  refine ⟨by decide, by decide, rfl, by decide⟩

/-- C3 (amended): every successful `get_weather` call satisfies
min ≤ max, and `hourly_data` has length min(len(times),
len(temperatures)) — the full hourly series is returned only when the
temperature list is at least as long as the time list, since `zip`
truncates to the shorter of the two. -/
theorem C3_success_bounds (city : String) (gd : GeoData) (fc : ForecastHourly)
    (s : WeatherSuccess)
    (h : (get_weather city (WebOutcome.ok gd) (WebOutcome.ok fc)).result
        = WeatherResult.success s) :
    s.min_temperature_celsius ≤ s.max_temperature_celsius ∧
    s.hourly_data.length = min fc.time.length fc.temperature_2m.length := by
  rcases gd with ⟨results⟩
  cases results with
  | none => simp [get_weather] at h
  | some l =>
    cases l with
    | nil => simp [get_weather] at h
    | cons loc rest =>
      cases hmin : pyMin fc.temperature_2m with
      | error m => simp [get_weather, processForecast, hmin] at h
      | ok a =>
        cases hmax : pyMax fc.temperature_2m with
        | error m => simp [get_weather, processForecast, hmin, hmax] at h
        | ok b =>
          cases hrl : reportLines fc.time fc.temperature_2m with
          | error m => simp [get_weather, processForecast, hmin, hmax, hrl] at h
          | ok ln =>
            have hs : WeatherResult.success
                { city := loc.name,
                  report := reportHeader loc a b ++ ln,
                  min_temperature_celsius := a,
                  max_temperature_celsius := b,
                  hourly_data := fc.time.zip fc.temperature_2m }
                  = WeatherResult.success s := by
              rw [← h]
              simp [get_weather, processForecast, hmin, hmax, hrl]
            have hs2 := WeatherResult.success.inj hs
            rw [← hs2]
            exact ⟨pyMin_le_pyMax hmin hmax, List.length_zip fc.time fc.temperature_2m⟩

/-- Witness for C3 at a one-hour forecast. -/
theorem C3_witness :
    (7 : Int) ≤ 7 ∧
    ([("2024-01-01T00:00", (7 : Int))] : List (String × Int)).length = min 1 1 :=
  C3_success_bounds "L" ⟨some [⟨"L", "GB", 0, 0⟩]⟩ ⟨["2024-01-01T00:00"], [7]⟩
    { city := "L",
      report := "Hourly Temperature Forecast for L, GB (Lat: 0.00, Lon: 0.00) for the next 24 hours:\nMin Temperature: 7°C\nMax Temperature: 7°C\nHourly Data (Time: Temp):\n  00h: 7°C\n",
      min_temperature_celsius := 7,
      max_temperature_celsius := 7,
      hourly_data := [("2024-01-01T00:00", 7)] }
    (by decide)

end GoogleADK
